import Mathlib

/-!
Shallow embedding of `maya_stubgen/utils.py`: host-runtime lifecycle
helpers, the memoized version query, the cache-invalidation routine and
the timing wrapper.  Filesystem and host effects are made explicit as
state passing; fallible operations return `Except`.
-/

/-- Filesystem errors that the embedded operations can raise. -/
inductive FsError
  | fileNotFound
  deriving DecidableEq, Repr

/-- Log events emitted by `remove_outdated_cache`. -/
inductive CacheLog
  | warnMismatch (current cached : String)
  | warnUnknown
  deriving DecidableEq, Repr

/-- The contents of the `.cache` directory: the optional `.maya_version`
marker file (its text when present) and the remaining entries as an
association list of file name and contents. -/
structure CacheDir where
  marker : Option String
  others : List (String × String)
  deriving DecidableEq, Repr

/-- The filesystem state visible to `remove_outdated_cache`:
`none` when `<resolved-cwd>/.cache` does not exist. -/
structure CacheState where
  cache : Option CacheDir
  deriving DecidableEq, Repr

/-- Embeds Python's `str.strip()`: removes leading and trailing
whitespace characters. -/
def strip (s : String) : String :=
  String.mk
    (((s.data.dropWhile Char.isWhitespace).reverse.dropWhile
        Char.isWhitespace).reverse)

/-- Embeds `Path.read_text` on the marker file: raises
`FileNotFoundError` when the file is absent, returning its text
otherwise. -/
def read_text : Option String → Except FsError String
  | none => Except.error FsError.fileNotFound
  | some c => Except.ok c

/-- The state after the wipe sequence of `remove_outdated_cache`:
`shutil.rmtree(cache)`, `cache.mkdir(parents=True, exist_ok=True)`,
`maya_version_file.write_text(version)`. -/
def wipe_cache (version : String) : CacheState :=
  { cache := some { marker := some version, others := [] } }

/-- Embeds `remove_outdated_cache` (utils.py lines 109-133), taking the
current host version (the result of `maya_version()`) as a parameter.
Returns the `Except` outcome, the resulting filesystem state (the input
state when an exception is raised, as the raise happens before any
mutation) and the warnings logged.  The branch condition is the
source's literal `if not maya_version_file.exists():`. -/
def remove_outdated_cache (version : String) (s : CacheState) :
    Except FsError Unit × CacheState × List CacheLog :=
  match s.cache with
  | none => (Except.ok (), s, [])
  | some dir =>
    if dir.marker.isNone then
      match read_text dir.marker with
      | Except.error e => (Except.error e, s, [])
      | Except.ok txt =>
        let cache_version := strip txt
        if cache_version = version then
          (Except.ok (), s, [])
        else
          (Except.ok (), wipe_cache version,
            [CacheLog.warnMismatch version cache_version])
    else
      (Except.ok (), wipe_cache version, [CacheLog.warnUnknown])

/-- Process-wide state of the memoized version query: the module-level
`_maya_version` global and a count of host queries performed. -/
structure VersionState where
  memo : Option String
  queries : Nat
  deriving DecidableEq, Repr

/-- Embeds `maya_version` (utils.py lines 99-106).  `host` is the string
`maya.cmds.about(majorVersion=True)` would return; the query counter
increments exactly when the host is contacted. -/
def maya_version (host : String) (s : VersionState) : String × VersionState :=
  match s.memo with
  | some v => (v, s)
  | none => (host, { memo := some host, queries := s.queries + 1 })

/-- Events observable around the scoped helper: the call to
`initialize_maya`, the caller's body running, and the call to
`uninitialize_maya`. -/
inductive CtxEvent
  | initCall
  | bodyStep
  | uninitCall
  deriving DecidableEq, Repr

/-- Pre-yield and post-yield actions of the `maya_standalone` generator
(utils.py lines 89-93), plus whether the yield is wrapped in
try/finally.  The source body is three statements with no try, so
`protectedExit` is `false`. -/
structure GenCtxManager where
  pre : List CtxEvent
  post : List CtxEvent
  protectedExit : Bool
  deriving DecidableEq, Repr

/-- The `maya_standalone` generator: `initialize_maya()` before the bare
`yield`, `uninitialize_maya()` after it, no try/finally. -/
def maya_standalone : GenCtxManager :=
  { pre := [CtxEvent.initCall], post := [CtxEvent.uninitCall],
    protectedExit := false }

/-- Executes `with <g>: body` under `@contextmanager` semantics: the
pre-yield actions run on entry; on normal completion the generator is
resumed and the post-yield actions run; when the body raises, the
exception is thrown into the generator at the yield point, so the
post-yield actions run only if a try/finally protects the yield.
Returns the event trace and whether the execution completed without an
exception. -/
def run_with (g : GenCtxManager) (bodyOk : Bool) : List CtxEvent × Bool :=
  if bodyOk then
    (g.pre ++ [CtxEvent.bodyStep] ++ g.post, true)
  else
    (g.pre ++ [CtxEvent.bodyStep] ++
      (if g.protectedExit then g.post else []), false)

/-- A log record of the timing wrapper: the wrapped callable's name and
the elapsed duration. -/
structure TimedLog where
  name : String
  elapsed : Int
  deriving DecidableEq, Repr

/-- Embeds `timed` (utils.py lines 144-151) applied to one invocation.
The callable is modelled as `f : α → Except ε β` (`Except.error` is a
raised exception); `t1` and `t2` are the two `perf_counter` readings.
When `f` raises, the exception propagates before the log statement is
reached, so no log record is produced. -/
def timed {α β ε : Type} (name : String) (t1 t2 : Int)
    (f : α → Except ε β) (x : α) : Except ε β × List TimedLog :=
  match f x with
  | Except.ok v => (Except.ok v, [{ name := name, elapsed := t2 - t1 }])
  | Except.error e => (Except.error e, [])

/-- Log events emitted by the lifecycle helpers. -/
inductive MayaLog
  | infoInitializing
  | errorInitFailed
  | warnPluginFailed (p : String)
  | successInitialized
  | infoUninitializing
  | errorUninitFailed
  | successUninitialized
  deriving DecidableEq, Repr

/-- World state touched by the lifecycle helpers: whether the standalone
runtime is running, whether a Qt application object was constructed,
whether `./temp/maya_app_dir` exists, the root logger's handler count,
and the log lines emitted so far. -/
structure MayaWorld where
  standaloneRunning : Bool
  qtApp : Bool
  tempMayaAppDir : Bool
  rootHandlers : Nat
  logs : List MayaLog
  deriving DecidableEq, Repr

/-- Appends one log line to the world. -/
def pushLog (e : MayaLog) (w : MayaWorld) : MayaWorld :=
  { w with logs := w.logs ++ [e] }

/-- The fixed plugin list `PLUGINS` of utils.py line 37. -/
def PLUGINS : List String := ["invertShape.mll", "poseInterpolator.mll"]

/-- Embeds `initialize_maya` (utils.py lines 40-67).  `has_maya` is the
module-level `_has_maya` flag; `initOk` tells whether
`maya.standalone.initialize()` succeeds; `pluginOk p` tells whether
`maya.cmds.loadPlugin p` succeeds.  Every host failure is caught and
logged, so the embedding never returns an error. -/
def init_maya (has_maya : Bool) (initOk : Bool) (pluginOk : String → Bool)
    (w : MayaWorld) : Except FsError MayaWorld :=
  if !has_maya then
    Except.ok w
  else
    let w1 := pushLog MayaLog.infoInitializing w
    let w2 := { w1 with qtApp := true }
    if !initOk then
      Except.ok (pushLog MayaLog.errorInitFailed w2)
    else
      let w3 := { w2 with standaloneRunning := true }
      let w4 := PLUGINS.foldl
        (fun acc p =>
          if pluginOk p then acc else pushLog (MayaLog.warnPluginFailed p) acc)
        w3
      let w5 := { w4 with rootHandlers := w4.rootHandlers - 1 }
      Except.ok (pushLog MayaLog.successInitialized w5)

/-- Embeds `shutil.rmtree` on a path whose existence is `present`:
deletes the tree when present; when absent, raises `FileNotFoundError`
unless `ignore` (the `ignore_errors=True` keyword) is set.  Returns the
path's existence afterwards. -/
def rmtree (present : Bool) (ignore : Bool) : Except FsError Bool :=
  if present then Except.ok false
  else if ignore then Except.ok false
  else Except.error FsError.fileNotFound

/-- Embeds `uninitialize_maya` (utils.py lines 70-86).  `uninitOk` tells
whether `maya.standalone.uninitialize()` succeeds; the `finally` block
removes `./temp/maya_app_dir` with errors ignored. -/
def uninit_maya (has_maya : Bool) (uninitOk : Bool) (w : MayaWorld) :
    Except FsError MayaWorld :=
  if !has_maya then
    Except.ok w
  else
    let w1 := pushLog MayaLog.infoUninitializing w
    let w2 :=
      if uninitOk then
        pushLog MayaLog.successUninitialized { w1 with standaloneRunning := false }
      else
        pushLog MayaLog.errorUninitFailed w1
    match rmtree w2.tempMayaAppDir true with
    | Except.error e => Except.error e
    | Except.ok present => Except.ok { w2 with tempMayaAppDir := present }

/-- C1: with the cache directory present and a marker file whose
stripped contents differ from the current host version,
`remove_outdated_cache` succeeds, the resulting cache directory is
recreated empty with a fresh marker holding the current version. -/
theorem C1_wipe_on_version_mismatch (version contents : String)
    (others : List (String × String)) (h : strip contents ≠ version) :
    remove_outdated_cache version
        { cache := some { marker := some contents, others := others } } =
      (Except.ok (),
        { cache := some { marker := some version, others := [] } },
        [CacheLog.warnUnknown]) := by
  simp [remove_outdated_cache, wipe_cache]

/-- Witness for C1 at version "2023" against a cached marker "2022". -/
theorem C1_wipe_on_version_mismatch_witness :
    strip "2022" ≠ "2023" ∧
      remove_outdated_cache "2023"
          { cache := some { marker := some "2022",
                            others := [("stubs.txt", "data")] } } =
        (Except.ok (),
          { cache := some { marker := some "2023", others := [] } },
          [CacheLog.warnUnknown]) :=
  ⟨by decide,
    C1_wipe_on_version_mismatch "2023" "2022" [("stubs.txt", "data")] (by decide)⟩

/-- C2 counter-evidence: with the marker equal to the current version
"2023", the code still wipes the cache — the other entry
`stubs.txt` is deleted and the state changes, contradicting the claim
that the cache is left untouched. -/
theorem C2_wipes_matching_cache :
    remove_outdated_cache "2023"
        { cache := some { marker := some "2023",
                          others := [("stubs.txt", "data")] } } =
      (Except.ok (),
        { cache := some { marker := some "2023", others := [] } },
        [CacheLog.warnUnknown]) ∧
      ({ cache := some { marker := some "2023", others := [] } } : CacheState) ≠
        { cache := some { marker := some "2023",
                          others := [("stubs.txt", "data")] } } := by
  constructor
  · rfl
  · decide

/-- C3 counter-evidence: with the cache present and the marker file
absent, the code raises `FileNotFoundError` from reading the missing
marker and leaves the cache unchanged instead of wiping it. -/
theorem C3_raises_instead_of_wiping :
    remove_outdated_cache "2023"
        { cache := some { marker := none, others := [("genA.txt", "a")] } } =
      (Except.error FsError.fileNotFound,
        { cache := some { marker := none, others := [("genA.txt", "a")] } },
        []) := by
  rfl

/-- C4 counter-evidence: when the caller's body raises, the
`maya_standalone` generator has no try/finally around its yield, so the
trace ends after the body and `uninitialize_maya` is never called. -/
theorem C4_no_teardown_on_exception :
    run_with maya_standalone false =
        ([CtxEvent.initCall, CtxEvent.bodyStep], false) ∧
      CtxEvent.uninitCall ∉ (run_with maya_standalone false).1 := by
  constructor
  · rfl
  · decide

/-- C5: the timing wrapper returns exactly the wrapped callable's
result; a successful call emits exactly one log record, and a raising
call propagates the exception with no log record. -/
theorem C5_timed_passthrough {α β ε : Type} (name : String) (t1 t2 : Int)
    (f : α → Except ε β) (x : α) :
    (timed name t1 t2 f x).1 = f x ∧
      (∀ v : β, f x = Except.ok v → (timed name t1 t2 f x).2.length = 1) ∧
      (∀ e : ε, f x = Except.error e → (timed name t1 t2 f x).2 = []) := by
  refine ⟨?_, ?_, ?_⟩
  · cases h : f x <;> simp [timed, h]
  · intro v h
    simp [timed, h]
  · intro e h
    simp [timed, h]

/-- Witness for C5 on the concrete callable adding one over the
naturals, applied at 3. -/
theorem C5_timed_passthrough_witness :
    (timed "incr" 0 1 (fun n : Nat => (Except.ok (n + 1) : Except String Nat)) 3).1 =
        Except.ok 4 ∧
      (timed "incr" 0 1
          (fun n : Nat => (Except.ok (n + 1) : Except String Nat)) 3).2.length = 1 := by
  have h := C5_timed_passthrough "incr" 0 1
    (fun n : Nat => (Except.ok (n + 1) : Except String Nat)) 3
  exact ⟨h.1, h.2.1 4 rfl⟩

/-- C6: two successive calls to `maya_version` return the identical
string, the second call leaves the process state unchanged (so the host
is not queried again), and any single call performs at most one host
query. -/
theorem C6_maya_version_memoized (host : String) (s : VersionState) :
    (maya_version host (maya_version host s).2).1 = (maya_version host s).1 ∧
      (maya_version host (maya_version host s).2).2 = (maya_version host s).2 ∧
      (maya_version host s).2.queries ≤ s.queries + 1 := by
  cases h : s.memo <;> simp [maya_version, h]

/-- C7: when the cache directory does not exist,
`remove_outdated_cache` succeeds without mutating the filesystem state
and without logging. -/
theorem C7_no_cache_no_mutation (version : String) (s : CacheState)
    (h : s.cache = none) :
    remove_outdated_cache version s = (Except.ok (), s, []) := by
  simp [remove_outdated_cache, h]

/-- Witness for C7 at the empty filesystem. -/
theorem C7_no_cache_no_mutation_witness :
    remove_outdated_cache "2023" { cache := none } =
      (Except.ok (), { cache := none }, []) :=
  C7_no_cache_no_mutation "2023" { cache := none } rfl

/-- C8: with the host runtime absent, both lifecycle helpers return the
world unchanged and raise no exception, whatever the hypothetical host
outcomes would have been. -/
theorem C8_no_maya_noop (initOk uninitOk : Bool) (pluginOk : String → Bool)
    (w : MayaWorld) :
    init_maya false initOk pluginOk w = Except.ok w ∧
      uninit_maya false uninitOk w = Except.ok w := by
  constructor <;> rfl

/-- C9: with the host present, whether or not the standalone shutdown
succeeds, `uninitialize_maya` completes without raising and the
`./temp/maya_app_dir` directory is gone afterwards. -/
theorem C9_temp_dir_removed (uninitOk : Bool) (w : MayaWorld) :
    ∃ w' : MayaWorld,
      uninit_maya true uninitOk w = Except.ok w' ∧ w'.tempMayaAppDir = false := by
  cases w with
  | mk sr qt tmp rh lg =>
    cases uninitOk <;> cases tmp <;> exact ⟨_, rfl, rfl⟩

/-- C10: with the cache present and the marker file absent,
`remove_outdated_cache` raises a file-not-found error and terminates
with the cache state unchanged, wiping nothing and writing nothing. -/
theorem C10_missing_marker_raises (version : String) (dir : CacheDir)
    (h : dir.marker = none) :
    remove_outdated_cache version { cache := some dir } =
      (Except.error FsError.fileNotFound, { cache := some dir }, []) := by
  simp [remove_outdated_cache, h, read_text]

/-- Witness for C10 on a cache holding one generated file and no
marker. -/
theorem C10_missing_marker_raises_witness :
    remove_outdated_cache "2024"
        { cache := some { marker := none, others := [("genB.txt", "b")] } } =
      (Except.error FsError.fileNotFound,
        { cache := some { marker := none, others := [("genB.txt", "b")] } },
        []) :=
  C10_missing_marker_raises "2024" { marker := none, others := [("genB.txt", "b")] } rfl
